import Mathlib

/-!
Shallow embedding of the go-anyway/framework-elasticsearch wrapper.

The repository is a thin configuration and observability wrapper around the
native go-elasticsearch client.  We embed:

  - the JSON data model used for request bodies and decoded responses
    (Go interface-valued payloads, json.Marshal / json.Decode behaviour at the
    level of parsed JSON values);
  - the Options / Config structures and their translation (Validate, ToOptions);
  - client construction (NewElasticsearch) with the network modelled as
    explicit outcome parameters;
  - every document / index operation, with the transport modelled as a
    function from the constructed request to a transport outcome;
  - the trace / log decorators (executeWithTrace, queryWithTrace) with
    observability side effects reified as an event list.

Statuses are Nat, durations are Int nanoseconds (Go time.Duration),
errors are the strings the Go code builds with fmt.Errorf.
-/

namespace FrameworkES

/-- JSON values as decoded by Go encoding/json into interface values.
Numbers are modelled as integers (the wrapper only ever inspects the integral
count field; float subtleties are outside the embedding). -/
inductive JsonValue where
  | null
  | bool (b : Bool)
  | num (n : Int)
  | str (s : String)
  | arr (elems : List JsonValue)
  | obj (fields : List (String × JsonValue))
deriving Repr, BEq

mutual

/-- Compact JSON serialisation, standing in for Go json.Marshal output text
(string escaping is not modelled; no claim depends on it). -/
def encode : JsonValue → String
  | .null => "null"
  | .bool b => if b then "true" else "false"
  | .num n => toString n
  | .str s => "\"" ++ s ++ "\""
  | .arr elems => "[" ++ encodeElems elems ++ "]"
  | .obj fields => "\x7b" ++ encodeFields fields ++ "\x7d"

/-- Comma-separated serialisation of array elements. -/
def encodeElems : List JsonValue → String
  | [] => ""
  | [v] => encode v
  | v :: rest => encode v ++ "," ++ encodeElems rest

/-- Comma-separated serialisation of object fields. -/
def encodeFields : List (String × JsonValue) → String
  | [] => ""
  | [kv] => "\"" ++ kv.1 ++ "\":" ++ encode kv.2
  | kv :: rest => "\"" ++ kv.1 ++ "\":" ++ encode kv.2 ++ "," ++ encodeFields rest

end

/-- A byte payload classified by whether it parses as JSON: Go byte slices and
strings are embedded by their JSON parse when they have one, or kept as raw
text when they do not. -/
inductive Payload where
  | json (j : JsonValue)
  | malformed (s : String)
deriving Repr, BEq

/-- Text of a payload (the wire bytes). -/
def payloadText : Payload → String
  | .json j => encode j
  | .malformed s => s

/-- A Go interface value handed to Index / Update as the document body,
as discriminated by the type switch in the source: a string, a byte slice,
or any other value, which json.Marshal either serialises (to some JSON value)
or rejects (e.g. a channel). -/
inductive GoValue where
  | goString (p : Payload)
  | goBytes (p : Payload)
  | structured (j : JsonValue)
  | unserializable (typeName : String)
deriving Repr, BEq

/-- Body normalisation: the type switch at the top of index and Update.
A string or byte slice is used verbatim; any other value is JSON-serialised,
and a serialisation failure produces the local marshal error. -/
def normalizeBody : GoValue → Except String Payload
  | .goString p => .ok p
  | .goBytes p => .ok p
  | .structured j => .ok (.json j)
  | .unserializable typeName =>
      .error ("failed to marshal document: json: unsupported type: " ++ typeName)

/-- An HTTP response from the backing store: status code plus body bytes
(classified by JSON parse). -/
structure Response where
  statusCode : Nat
  body : Payload
deriving Repr, BEq

/-- The native client's esapi.Response.IsError: any status outside the
success range (per the spec, the conventional success / error partition). -/
def isError (r : Response) : Bool := r.statusCode > 299

/-- The native client's esapi.Response.String used in error messages:
status code in brackets followed by the body text. -/
def resString (r : Response) : String :=
  "[" ++ toString r.statusCode ++ "] " ++ payloadText r.body

/-- A decoded result map: some fields for a decoded object, none for the Go
nil map (which json.Decode leaves in place when the body is the literal
null). -/
abbrev RMap := Option (List (String × JsonValue))

/-- Go json.Decode of a response body into a string-keyed map: fails on
malformed JSON and on a non-object non-null top level; null leaves the map
nil; an object yields its fields. -/
def decodeMap : Payload → Except String RMap
  | .malformed s => .error ("invalid character in " ++ s)
  | .json .null => .ok none
  | .json (.obj fields) => .ok (some fields)
  | .json j => .error ("json: cannot unmarshal " ++ encode j ++ " into map")

/-- Lookup in a decoded object, last binding winning (Go map semantics for
duplicate JSON keys). -/
def mapGet (fields : List (String × JsonValue)) (key : String) : Option JsonValue :=
  (fields.reverse.find? (fun kv => kv.1 == key)).map (fun kv => kv.2)

/-- Lookup in a possibly-nil decoded map; lookup in a nil map yields nothing. -/
def rmapGet (m : RMap) (key : String) : Option JsonValue :=
  match m with
  | none => none
  | some fields => mapGet fields key

/-- The esapi.IndexRequest as constructed by the index method. -/
structure IndexRequest where
  index : String
  documentID : String
  body : Payload
  refresh : String
deriving Repr, BEq

/-- The esapi.GetRequest as constructed by the get method. -/
structure GetRequest where
  index : String
  documentID : String
deriving Repr, BEq

/-- The esapi.DeleteRequest as constructed by the delete method. -/
structure DeleteRequest where
  index : String
  documentID : String
  refresh : String
deriving Repr, BEq

/-- The esapi.UpdateRequest as constructed by Update. -/
structure UpdateRequest where
  index : String
  documentID : String
  body : Payload
  refresh : String
deriving Repr, BEq

/-- The esapi.BulkRequest as constructed by the bulk method. -/
structure BulkRequest where
  body : String
  refresh : String
deriving Repr, BEq

/-- The esapi.IndicesExistsRequest as constructed by ExistsIndex. -/
structure IndicesExistsRequest where
  index : List String
deriving Repr, BEq

/-- A search-shaped request (esapi.SearchRequest / UpdateByQueryRequest /
DeleteByQueryRequest): index list and a JSON body. -/
structure QueryRequest where
  index : List String
  body : Payload
deriving Repr, BEq

/-- The esapi.CountRequest: index list and an optional body (set only when the
marshalled query is non-empty). -/
structure CountRequest where
  index : List String
  body : Option Payload
deriving Repr, BEq

/-- A Go map of interface values handed in as a query / script / settings
argument, as json.Marshal sees it: either serialisable (to an object with the
given fields) or not. -/
inductive GoMap where
  | serializable (fields : List (String × JsonValue))
  | unserializable (typeName : String)
deriving Repr, BEq

/-- The json.Marshal call on a Go map argument. -/
def marshalGoMap : GoMap → Except String JsonValue
  | .serializable fields => .ok (.obj fields)
  | .unserializable typeName =>
      .error ("json: unsupported type: " ++ typeName)

/-- The transport: req.Do either fails with a transport error or yields a
response.  Operations are parametrised by the transport so that a claim can
quantify over every possible network outcome. -/
abbrev Transport (Req : Type) := Req → Except String Response

/-- The index method (inner body of Index): normalise the document body,
build an IndexRequest with refresh forced on, dispatch, and interpret the
response.  The first component records the request that was constructed and
dispatched, none when the method returned before constructing one. -/
def index (idx documentID : String) (body : GoValue)
    (transport : Transport IndexRequest) : Option IndexRequest × Option String :=
  match normalizeBody body with
  | .error e => (none, some e)
  | .ok payload =>
      let req : IndexRequest :=
        { index := idx, documentID := documentID, body := payload, refresh := "true" }
      match transport req with
      | .error e => (some req, some ("failed to index document: " ++ e))
      | .ok res =>
          if isError res then
            (some req, some ("elasticsearch index error: " ++ resString res))
          else
            (some req, none)

/-- The get method (inner body of Get): dispatch a GetRequest and interpret
the response, specialising 404 to the not-found error and decoding the body
on success. -/
def get (idx documentID : String)
    (transport : Transport GetRequest) : RMap × Option String :=
  let req : GetRequest := { index := idx, documentID := documentID }
  match transport req with
  | .error e => (none, some ("failed to get document: " ++ e))
  | .ok res =>
      if isError res then
        if res.statusCode == 404 then
          (none, some "document not found")
        else
          (none, some ("elasticsearch get error: " ++ resString res))
      else
        match decodeMap res.body with
        | .error e => (none, some ("failed to decode response: " ++ e))
        | .ok m => (m, none)

/-- The delete method (inner body of Delete): dispatch a DeleteRequest with
refresh forced on and interpret the response, specialising 404. -/
def delete (idx documentID : String)
    (transport : Transport DeleteRequest) : Option String :=
  let req : DeleteRequest := { index := idx, documentID := documentID, refresh := "true" }
  match transport req with
  | .error e => some ("failed to delete document: " ++ e)
  | .ok res =>
      if isError res then
        if res.statusCode == 404 then
          some "document not found"
        else
          some ("elasticsearch delete error: " ++ resString res)
      else
        none

/-- The json.Marshal of the Update envelope: a map with the normalised body
embedded under the doc key as a json.RawMessage.  Marshalling a RawMessage
that is not valid JSON fails; a valid one is embedded as its JSON value. -/
def marshalUpdateBody : Payload → Except String Payload
  | .json j => .ok (.json (.obj [("doc", j)]))
  | .malformed _ =>
      .error "json: error calling MarshalJSON for type json.RawMessage"

/-- Update: normalise the document body, wrap it in the doc envelope, build
an UpdateRequest with refresh forced on, dispatch, and interpret the
response, specialising 404.  The first component records the dispatched
request, none when a local marshal error returned first. -/
def Update (idx documentID : String) (body : GoValue)
    (transport : Transport UpdateRequest) : Option UpdateRequest × Option String :=
  match normalizeBody body with
  | .error e => (none, some e)
  | .ok payload =>
      match marshalUpdateBody payload with
      | .error e => (none, some ("failed to marshal update body: " ++ e))
      | .ok updateBody =>
          let req : UpdateRequest :=
            { index := idx, documentID := documentID, body := updateBody, refresh := "true" }
          match transport req with
          | .error e => (some req, some ("failed to update document: " ++ e))
          | .ok res =>
              if isError res then
                if res.statusCode == 404 then
                  (some req, some "document not found")
                else
                  (some req, some ("elasticsearch update error: " ++ resString res))
              else
                (some req, none)

/-- The BulkRequest constructed by the bulk method: body verbatim, refresh
forced on. -/
def bulkRequest (body : String) : BulkRequest :=
  { body := body, refresh := "true" }

/-- The bulk method (inner body of Bulk): dispatch the constructed
BulkRequest and interpret the response. -/
def bulk (body : String) (transport : Transport BulkRequest) : Option String :=
  match transport (bulkRequest body) with
  | .error e => some ("failed to bulk: " ++ e)
  | .ok res =>
      if isError res then
        some ("elasticsearch bulk error: " ++ resString res)
      else
        none

/-- ExistsIndex: dispatch an IndicesExistsRequest; 404 means the index does
not exist (no error), any other error-range status is an error, success
means it exists.  The 404 test precedes the generic IsError test. -/
def ExistsIndex (idx : String)
    (transport : Transport IndicesExistsRequest) : Bool × Option String :=
  let req : IndicesExistsRequest := { index := [idx] }
  match transport req with
  | .error e => (false, some ("failed to check index: " ++ e))
  | .ok res =>
      if res.statusCode == 404 then
        (false, none)
      else if isError res then
        (false, some ("elasticsearch exists index error: " ++ resString res))
      else
        (true, none)

/-- executeQueryRequest: marshal the query map, build a search-shaped request
over the single index, dispatch, interpret the response and decode the body.
The operation name parametrises the error messages as in the source. -/
def executeQueryRequest (idx : String) (query : GoMap) (operation : String)
    (transport : Transport QueryRequest) : RMap × Option String :=
  match marshalGoMap query with
  | .error e => (none, some ("failed to marshal query: " ++ e))
  | .ok queryJson =>
      match transport { index := [idx], body := .json queryJson } with
      | .error e => (none, some ("failed to " ++ operation ++ ": " ++ e))
      | .ok res =>
          if isError res then
            (none, some ("elasticsearch " ++ operation ++ " error: " ++ resString res))
          else
            match decodeMap res.body with
            | .error e => (none, some ("failed to decode response: " ++ e))
            | .ok m => (m, none)

/-- The search method (inner body of Search): executeQueryRequest building a
SearchRequest. -/
def search (idx : String) (query : GoMap)
    (transport : Transport QueryRequest) : RMap × Option String :=
  executeQueryRequest idx query "search" transport

/-- DeleteByQuery: executeQueryRequest building a DeleteByQueryRequest. -/
def DeleteByQuery (idx : String) (query : GoMap)
    (transport : Transport QueryRequest) : RMap × Option String :=
  executeQueryRequest idx query "delete by query" transport

/-- The request body composed by UpdateByQuery: a query clause plus a script
clause when a script is supplied (Go map marshalling orders the keys
alphabetically: query before script). -/
def marshalUpdateQuery (query : GoMap) (script : Option GoMap) : Except String JsonValue :=
  match marshalGoMap query with
  | .error e => .error e
  | .ok queryJson =>
      match script with
      | none => .ok (.obj [("query", queryJson)])
      | some s =>
          match marshalGoMap s with
          | .error e => .error e
          | .ok scriptJson => .ok (.obj [("query", queryJson), ("script", scriptJson)])

/-- UpdateByQuery: compose the update-query body, build an
UpdateByQueryRequest, dispatch, interpret and decode. -/
def UpdateByQuery (idx : String) (query : GoMap) (script : Option GoMap)
    (transport : Transport QueryRequest) : RMap × Option String :=
  match marshalUpdateQuery query script with
  | .error e => (none, some ("failed to marshal update query: " ++ e))
  | .ok bodyJson =>
      match transport { index := [idx], body := .json bodyJson } with
      | .error e => (none, some ("failed to update by query: " ++ e))
      | .ok res =>
          if isError res then
            (none, some ("elasticsearch update by query error: " ++ resString res))
          else
            match decodeMap res.body with
            | .error e => (none, some ("failed to decode response: " ++ e))
            | .ok m => (m, none)

/-- Dispatch and response interpretation of Count: transport errors, status
errors and decode errors keep their own messages; on a decoded body the
count field must be a number (a Go float64 type assertion), otherwise the
explicit invalid-format error is returned. -/
def countDispatch (req : CountRequest) (transport : Transport CountRequest) :
    Int × Option String :=
  match transport req with
  | .error e => (0, some ("failed to count: " ++ e))
  | .ok res =>
      if isError res then
        (0, some ("elasticsearch count error: " ++ resString res))
      else
        match decodeMap res.body with
        | .error e => (0, some ("failed to decode response: " ++ e))
        | .ok m =>
            match rmapGet m "count" with
            | some (.num n) => (n, none)
            | _ => (0, some "invalid count response format")

/-- Count: marshal the optional query (nil query means no body), dispatch a
CountRequest, interpret and decode the response, then extract the numeric
count field; a missing or non-numeric field is the explicit format error. -/
def Count (idx : String) (query : Option GoMap)
    (transport : Transport CountRequest) : Int × Option String :=
  match query with
  | some q =>
      match marshalGoMap q with
      | .error e => (0, some ("failed to marshal query: " ++ e))
      | .ok queryJson =>
          countDispatch { index := [idx], body := some (.json queryJson) } transport
  | none => countDispatch { index := [idx], body := none } transport

/-- Observability side effects emitted by the decorators, reified in
chronological order: span lifecycle and attribute updates, structured logs. -/
inductive ObsEvent where
  | spanStart (operation idx documentID : String)
  | logError (operation idx documentID : String) (err : String)
  | logInfo (operation idx documentID : String)
  | spanSetStatusError (msg : String)
  | spanRecordError (err : String)
  | spanSetStatusOk
  | spanEnd
deriving Repr, BEq

/-- executeWithTrace: wrap a unit of work (its outcome given as an error
option) with span creation when tracing is enabled, error / success logging,
span status updates and the deferred span end; the wrapped error is returned
as-is.  The second component is the emitted event list. -/
def executeWithTrace (operation idx documentID : String) (enableTrace : Bool)
    (handler : Option String) : Option String × List ObsEvent :=
  let startEvents : List ObsEvent :=
    if enableTrace then [.spanStart operation idx documentID] else []
  let outcomeEvents : List ObsEvent :=
    match handler with
    | some err =>
        [.logError operation idx documentID err] ++
          (if enableTrace then [.spanSetStatusError err, .spanRecordError err] else [])
    | none =>
        [.logInfo operation idx documentID] ++
          (if enableTrace then [.spanSetStatusOk] else [])
  let endEvents : List ObsEvent := if enableTrace then [.spanEnd] else []
  (handler, startEvents ++ outcomeEvents ++ endEvents)

/-- queryWithTrace: like executeWithTrace for map-returning operations; on a
handler error the zero map is returned together with the unchanged error, on
success the handler result is returned unchanged. -/
def queryWithTrace (operation idx : String) (enableTrace : Bool)
    (handler : RMap × Option String) : (RMap × Option String) × List ObsEvent :=
  let startEvents : List ObsEvent :=
    if enableTrace then [.spanStart operation idx ""] else []
  match handler with
  | (result, err) =>
      match err with
      | some e =>
          let events := startEvents ++ [.logError operation idx "" e] ++
            (if enableTrace then [.spanSetStatusError e, .spanRecordError e, .spanEnd]
             else [])
          ((none, some e), events)
      | none =>
          let events := startEvents ++ [.logInfo operation idx ""] ++
            (if enableTrace then [.spanSetStatusOk, .spanEnd] else [])
          ((result, none), events)

/-- Index: the decorated entry point around the index method. -/
def Index (enableTrace : Bool) (idx documentID : String) (body : GoValue)
    (transport : Transport IndexRequest) : Option String × List ObsEvent :=
  executeWithTrace "index" idx documentID enableTrace
    (index idx documentID body transport).2

/-- Get: the decorated entry point around the get method. -/
def Get (enableTrace : Bool) (idx documentID : String)
    (transport : Transport GetRequest) : (RMap × Option String) × List ObsEvent :=
  queryWithTrace "get" idx enableTrace (get idx documentID transport)

/-- Delete: the decorated entry point around the delete method. -/
def Delete (enableTrace : Bool) (idx documentID : String)
    (transport : Transport DeleteRequest) : Option String × List ObsEvent :=
  executeWithTrace "delete" idx documentID enableTrace
    (delete idx documentID transport)

/-- Search: the decorated entry point around the search method. -/
def Search (enableTrace : Bool) (idx : String) (query : GoMap)
    (transport : Transport QueryRequest) : (RMap × Option String) × List ObsEvent :=
  queryWithTrace "search" idx enableTrace (search idx query transport)

/-- Bulk: the decorated entry point around the bulk method (empty index and
document id tags). -/
def Bulk (enableTrace : Bool) (body : String)
    (transport : Transport BulkRequest) : Option String × List ObsEvent :=
  executeWithTrace "bulk" "" "" enableTrace (bulk body transport)

/-- Options: validated connection options (durations are Go time.Duration,
modelled as integer nanoseconds). -/
structure Options where
  addresses : List String
  username : String
  password : String
  cloudID : String
  apiKey : String
  enableTLS : Bool
  caCert : String
  dialTimeout : Int
  readTimeout : Int
  writeTimeout : Int
  maxRetries : Int
  enableTrace : Bool
deriving Repr, BEq

/-- Config: the externally loaded configuration block; duration fields hold
the value of their Duration accessor in nanoseconds. -/
structure Config where
  enabled : Bool
  addresses : List String
  username : String
  password : String
  cloudID : String
  apiKey : String
  enableTLS : Bool
  caCert : String
  dialTimeout : Int
  readTimeout : Int
  writeTimeout : Int
  maxRetries : Int
  enableTrace : Bool
deriving Repr, BEq

/-- Index of the first empty address in the list, as found by the Validate
loop. -/
def firstEmptyAddr : List String → Nat → Option Nat
  | [], _ => none
  | addr :: rest, i => if addr = "" then some i else firstEmptyAddr rest (i + 1)

/-- Model of Config.Validate on a possibly-nil receiver: nil config is an error, a
disabled config validates vacuously, an enabled config needs a non-empty
address list with no empty entry. -/
def Validate : Option Config → Option String
  | none => some "elasticsearch config cannot be nil"
  | some c =>
      if !c.enabled then
        none
      else if c.addresses.isEmpty then
        some "elasticsearch addresses cannot be empty"
      else
        match firstEmptyAddr c.addresses 0 with
        | some i => some ("elasticsearch addresses[" ++ toString i ++ "] cannot be empty")
        | none => none

/-- The fixed fallback duration (30 seconds in nanoseconds) substituted for
unset timeout fields. -/
def defaultTimeout : Int := 30 * 1000000000

/-- Model of Config.ToOptions on a possibly-nil receiver: validate, reject a disabled
config, then carry every field through, substituting the fallback duration
for each zero timeout.  Pure: no network access is modelled because the
source performs none. -/
def ToOptions (c : Option Config) : Except String Options :=
  match Validate c with
  | some e => .error e
  | none =>
      match c with
      | none => .error "elasticsearch config cannot be nil"
      | some cfg =>
          if !cfg.enabled then
            .error "elasticsearch is not enabled"
          else
            .ok
              { addresses := cfg.addresses
                username := cfg.username
                password := cfg.password
                cloudID := cfg.cloudID
                apiKey := cfg.apiKey
                enableTLS := cfg.enableTLS
                caCert := cfg.caCert
                dialTimeout := if cfg.dialTimeout = 0 then defaultTimeout else cfg.dialTimeout
                readTimeout := if cfg.readTimeout = 0 then defaultTimeout else cfg.readTimeout
                writeTimeout := if cfg.writeTimeout = 0 then defaultTimeout else cfg.writeTimeout
                maxRetries := cfg.maxRetries
                enableTrace := cfg.enableTrace }

/-- The subset of the native elasticsearch.Config that NewElasticsearch
sets. -/
structure ESConfig where
  addresses : List String
  username : String
  password : String
  apiKey : String
  cloudID : String
  maxRetries : Int
deriving Repr, BEq

/-- The native client configuration built by NewElasticsearch from Options:
basic credentials take priority over the API key, the cloud identifier is
set when non-empty, and the retry count defaults to 3 when non-positive. -/
def buildConfig (opts : Options) : ESConfig :=
  let cfg0 : ESConfig :=
    { addresses := opts.addresses, username := "", password := "", apiKey := ""
      cloudID := "", maxRetries := 0 }
  let cfg1 :=
    if opts.username ≠ "" ∧ opts.password ≠ "" then
      { cfg0 with username := opts.username, password := opts.password }
    else if opts.apiKey ≠ "" then
      { cfg0 with apiKey := opts.apiKey }
    else
      cfg0
  let cfg2 := if opts.cloudID ≠ "" then { cfg1 with cloudID := opts.cloudID } else cfg1
  if opts.maxRetries > 0 then
    { cfg2 with maxRetries := opts.maxRetries }
  else
    { cfg2 with maxRetries := 3 }

/-- The wrapper client value: the native client (carrying its configuration)
plus the trace flag. -/
structure ElasticsearchClient where
  clientConfig : ESConfig
  enableTrace : Bool
deriving Repr, BEq

/-- NewElasticsearch on a possibly-nil Options pointer.  The environment is
explicit: createClient is the native constructor outcome for the built
configuration, probe is the outcome of the Info connectivity call.  Nil
options and an empty address list fail before the configuration is built,
before the native client is constructed and before the probe. -/
def NewElasticsearch (opts : Option Options)
    (createClient : ESConfig → Except String Unit)
    (probe : Except String Response) : Except String ElasticsearchClient :=
  match opts with
  | none => .error "elasticsearch options cannot be nil"
  | some o =>
      if o.addresses.isEmpty then
        .error "elasticsearch addresses cannot be empty"
      else
        let cfg := buildConfig o
        match createClient cfg with
        | .error e => .error ("failed to create elasticsearch client: " ++ e)
        | .ok _ =>
            match probe with
            | .error e => .error ("failed to connect to elasticsearch: " ++ e)
            | .ok res =>
                if isError res then
                  .error ("elasticsearch info error: " ++ resString res)
                else
                  .ok { clientConfig := cfg, enableTrace := o.enableTrace }

/-! Helper lemmas shared by the claim theorems. -/

/-- A string shorter than a prefix cannot equal that prefix followed by
anything. -/
theorem ne_append_of_length_lt (a b c : String) (h : a.length < b.length) :
    a ≠ b ++ c := by
  intro heq
  have hlen := congrArg String.length heq
  rw [String.length_append] at hlen
  omega

/-- Strings whose first characters differ are distinct, even after extending
the second one. -/
theorem ne_append_of_head_ne (a b c : String) (h0 : b.data ≠ [])
    (h1 : a.data.head? ≠ b.data.head?) : a ≠ b ++ c := by
  intro heq
  apply h1
  rw [heq, String.data_append]
  cases hb : b.data with
  | nil => exact absurd hb h0
  | cons x xs => simp

/-- The Validate scan finds no empty address exactly when none occurs. -/
theorem firstEmptyAddr_eq_none (l : List String) (k : Nat) (h : "" ∉ l) :
    firstEmptyAddr l k = none := by
  induction l generalizing k with
  | nil => rfl
  | cons a rest ih =>
      have ha : a ≠ "" := fun hc => h (hc ▸ List.mem_cons_self a rest)
      have hr : "" ∉ rest := fun hc => h (List.mem_cons_of_mem a hc)
      simp only [firstEmptyAddr, if_neg ha]
      exact ih (k + 1) hr

/-- The Validate scan finds some index when an empty address occurs. -/
theorem firstEmptyAddr_eq_some (l : List String) (k : Nat) (h : "" ∈ l) :
    ∃ i, firstEmptyAddr l k = some i := by
  induction l generalizing k with
  | nil => cases h
  | cons a rest ih =>
      by_cases ha : a = ""
      · exact ⟨k, by simp [firstEmptyAddr, ha]⟩
      · have hr : "" ∈ rest := by
          rcases List.mem_cons.mp h with h1 | h1
          · exact absurd h1.symm ha
          · exact h1
        obtain ⟨i, hi⟩ := ih (k + 1) hr
        exact ⟨i, by simp [firstEmptyAddr, if_neg ha, hi]⟩

/-! Claim theorems. -/

/-- Claim C1: for every response status, ExistsIndex returns (false, nil)
when the status is 404, (true, nil) when the status is in the success range,
and (false, some error) when the status is in any other error range; the 404
test precedes the generic error test, which is what makes the first case
reachable at all. -/
theorem existsIndex_status_trichotomy (idx : String) (res : Response) :
    (res.statusCode = 404 →
      ExistsIndex idx (fun _ => .ok res) = (false, none)) ∧
    (isError res = false →
      ExistsIndex idx (fun _ => .ok res) = (true, none)) ∧
    (isError res = true → res.statusCode ≠ 404 →
      ∃ e, ExistsIndex idx (fun _ => .ok res) = (false, some e)) := by
  unfold ExistsIndex
  refine ⟨fun h404 => ?_, fun hok => ?_, fun herr hne => ?_⟩
  · simp [h404]
  · have hne : res.statusCode ≠ 404 := by
      intro hc
      unfold isError at hok
      rw [hc] at hok
      simp at hok
    simp [hne, hok]
  · exact ⟨"elasticsearch exists index error: " ++ resString res, by simp [hne, herr]⟩

/-- Concrete evaluation of the three ExistsIndex outcomes. -/
theorem existsIndex_status_trichotomy_witness :
    ExistsIndex "idx" (fun _ => .ok ⟨404, .json .null⟩) = (false, none) ∧
    ExistsIndex "idx" (fun _ => .ok ⟨200, .json .null⟩) = (true, none) ∧
    ∃ e, ExistsIndex "idx" (fun _ => .ok ⟨500, .json .null⟩) = (false, some e) :=
  ⟨(existsIndex_status_trichotomy "idx" ⟨404, .json .null⟩).1 rfl,
   (existsIndex_status_trichotomy "idx" ⟨200, .json .null⟩).2.1 rfl,
   (existsIndex_status_trichotomy "idx" ⟨500, .json .null⟩).2.2 rfl (by decide)⟩

/-- Claim C6: for every wrapped unit of work and every outcome, the trace and
log decorators return the wrapped error unchanged and, on success, the
wrapped result unchanged; for the same outcome, running with tracing enabled
and disabled yields identical functional results, the event lists being the
only difference. -/
theorem decorators_preserve_outcome (operation idx documentID : String)
    (h : Option String) (q : RMap × Option String) (enableTrace : Bool) :
    ((executeWithTrace operation idx documentID enableTrace h).1 = h) ∧
    ((queryWithTrace operation idx enableTrace q).1.2 = q.2) ∧
    (q.2 = none → (queryWithTrace operation idx enableTrace q).1 = q) ∧
    ((executeWithTrace operation idx documentID true h).1 =
      (executeWithTrace operation idx documentID false h).1) ∧
    ((queryWithTrace operation idx true q).1 =
      (queryWithTrace operation idx false q).1) := by
  obtain ⟨result, err⟩ := q
  cases err with
  | none => exact ⟨rfl, rfl, fun _ => rfl, rfl, rfl⟩
  | some e => exact ⟨rfl, rfl, fun hc => Option.noConfusion hc, rfl, rfl⟩

/-- Concrete evaluation of the decorator on a successful query outcome. -/
theorem decorators_preserve_outcome_witness :
    (queryWithTrace "get" "idx" true (some [("a", .num 1)], none)).1 =
      (some [("a", .num 1)], none) :=
  (decorators_preserve_outcome "get" "idx" "d" none
    (some [("a", .num 1)], none) true).2.2.1 rfl

/-- Claim C10: every Bulk call constructs its request with refresh forced to
synchronous visibility (refresh set to the string true), so the transport is
only ever consulted at a forced-refresh request. -/
theorem bulk_refresh_forced (body : String) (t1 t2 : Transport BulkRequest) :
    (bulkRequest body).refresh = "true" ∧
    ((∀ r : BulkRequest, r.refresh = "true" → t1 r = t2 r) →
      bulk body t1 = bulk body t2) := by
  refine ⟨rfl, fun h => ?_⟩
  unfold bulk
  rw [h (bulkRequest body) rfl]

/-- Concrete evaluation of the forced-refresh fact on a sample bulk body. -/
theorem bulk_refresh_forced_witness :
    (bulkRequest "op-lines").refresh = "true" ∧
      bulk "op-lines" (fun _ => .ok ⟨200, .json .null⟩) =
        bulk "op-lines" (fun _ => .ok ⟨200, .json .null⟩) :=
  ⟨(bulk_refresh_forced "op-lines" (fun _ => .ok ⟨200, .json .null⟩)
      (fun _ => .ok ⟨200, .json .null⟩)).1,
   (bulk_refresh_forced "op-lines" (fun _ => .ok ⟨200, .json .null⟩)
      (fun _ => .ok ⟨200, .json .null⟩)).2 (fun _ _ => rfl)⟩

/-- Claim C2: Index and Update use string and byte payloads verbatim and
JSON-serialise any other value; the three input shapes carrying the same
JSON produce identical wire requests; and a serialisation failure (an
unserialisable value, or for Update a verbatim body the envelope marshal
rejects) is a local error returned before any request is constructed or
dispatched, for every possible transport. -/
theorem body_normalization (idx documentID : String) (p : Payload) (j : JsonValue)
    (s typeName : String)
    (ti : Transport IndexRequest) (tu : Transport UpdateRequest) :
    (normalizeBody (.goString p) = .ok p) ∧
    (normalizeBody (.goBytes p) = .ok p) ∧
    (normalizeBody (.structured j) = .ok (.json j)) ∧
    (index idx documentID (.goString (.json j)) ti =
      index idx documentID (.structured j) ti) ∧
    (index idx documentID (.goBytes (.json j)) ti =
      index idx documentID (.structured j) ti) ∧
    ((index idx documentID (.structured j) ti).1 =
      some { index := idx, documentID := documentID, body := .json j, refresh := "true" }) ∧
    (Update idx documentID (.goString (.json j)) tu =
      Update idx documentID (.structured j) tu) ∧
    (Update idx documentID (.goBytes (.json j)) tu =
      Update idx documentID (.structured j) tu) ∧
    ((Update idx documentID (.structured j) tu).1 =
      some { index := idx, documentID := documentID
             body := .json (.obj [("doc", j)]), refresh := "true" }) ∧
    (index idx documentID (.unserializable typeName) ti =
      (none, some ("failed to marshal document: json: unsupported type: " ++ typeName))) ∧
    (Update idx documentID (.unserializable typeName) tu =
      (none, some ("failed to marshal document: json: unsupported type: " ++ typeName))) ∧
    (Update idx documentID (.goString (.malformed s)) tu =
      (none, some ("failed to marshal update body: " ++
        "json: error calling MarshalJSON for type json.RawMessage"))) := by
  refine ⟨rfl, rfl, rfl, rfl, rfl, ?_, rfl, rfl, ?_, rfl, rfl, ?_⟩
  · cases hti : ti { index := idx, documentID := documentID
                     body := .json j, refresh := "true" } with
    | error e => simp [index, normalizeBody, hti]
    | ok res =>
        by_cases h : isError res <;> simp [index, normalizeBody, hti, h]
  · cases htu : tu { index := idx, documentID := documentID
                     body := .json (.obj [("doc", j)]), refresh := "true" } with
    | error e => simp [Update, normalizeBody, marshalUpdateBody, htu]
    | ok res =>
        by_cases h : isError res <;> by_cases h4 : res.statusCode = 404 <;>
          simp [Update, normalizeBody, marshalUpdateBody, htu, h, h4]
  · rfl

/-- Claim C3: for every error-range response received by get, delete or
Update, a status of exactly 404 yields the document-not-found error, and any
other error-range status yields the generic operation error, which is a
different string. -/
theorem notFound_distinguishable (idx documentID : String) (res : Response)
    (herr : isError res = true) :
    (res.statusCode = 404 →
      (get idx documentID (fun _ => .ok res)).2 = some "document not found" ∧
      delete idx documentID (fun _ => .ok res) = some "document not found" ∧
      (Update idx documentID (.structured .null) (fun _ => .ok res)).2 =
        some "document not found") ∧
    (res.statusCode ≠ 404 →
      (get idx documentID (fun _ => .ok res)).2 =
        some ("elasticsearch get error: " ++ resString res) ∧
      delete idx documentID (fun _ => .ok res) =
        some ("elasticsearch delete error: " ++ resString res) ∧
      (Update idx documentID (.structured .null) (fun _ => .ok res)).2 =
        some ("elasticsearch update error: " ++ resString res) ∧
      ("elasticsearch get error: " ++ resString res) ≠ "document not found" ∧
      ("elasticsearch delete error: " ++ resString res) ≠ "document not found" ∧
      ("elasticsearch update error: " ++ resString res) ≠ "document not found") := by
  constructor
  · intro h404
    refine ⟨?_, ?_, ?_⟩ <;>
      simp [get, delete, Update, normalizeBody, marshalUpdateBody, herr, h404]
  · intro hne
    refine ⟨?_, ?_, ?_, ?_, ?_, ?_⟩
    · simp [get, herr, hne]
    · simp [delete, herr, hne]
    · simp [Update, normalizeBody, marshalUpdateBody, herr, hne]
    · exact (ne_append_of_length_lt "document not found"
        "elasticsearch get error: " (resString res) (by decide)).symm
    · exact (ne_append_of_length_lt "document not found"
        "elasticsearch delete error: " (resString res) (by decide)).symm
    · exact (ne_append_of_length_lt "document not found"
        "elasticsearch update error: " (resString res) (by decide)).symm

/-- Concrete evaluation of the not-found specialisation: a 404 and a 500
response to get, distinguishable error strings included. -/
theorem notFound_distinguishable_witness :
    (get "idx" "doc1" (fun _ => .ok ⟨404, .json .null⟩)).2 =
      some "document not found" ∧
    (get "idx" "doc1" (fun _ => .ok ⟨500, .json .null⟩)).2 =
      some ("elasticsearch get error: " ++ resString ⟨500, .json .null⟩) ∧
    ("elasticsearch get error: " ++ resString ⟨500, .json .null⟩) ≠
      "document not found" :=
  ⟨((notFound_distinguishable "idx" "doc1" ⟨404, .json .null⟩ rfl).1 rfl).1,
   ((notFound_distinguishable "idx" "doc1" ⟨500, .json .null⟩ rfl).2 (by decide)).1,
   ((notFound_distinguishable "idx" "doc1" ⟨500, .json .null⟩ rfl).2 (by decide)).2.2.2.1⟩

/-- Claim C4: ToOptions fails with a descriptive error on a nil config, on
an enabled config whose address list is empty or contains an empty address,
and on a disabled config; for every enabled config with a valid non-empty
address list it succeeds, carrying all fields through and substituting the
fixed 30-second fallback for each zero timeout field.  The translation is a
pure function of the config, so no network access occurs. -/
theorem toOptions_spec (cfg : Config) :
    (ToOptions none = .error "elasticsearch config cannot be nil") ∧
    (cfg.enabled = false →
      ToOptions (some cfg) = .error "elasticsearch is not enabled") ∧
    (cfg.enabled = true → cfg.addresses = [] →
      ToOptions (some cfg) = .error "elasticsearch addresses cannot be empty") ∧
    (cfg.enabled = true → "" ∈ cfg.addresses →
      ∃ i : Nat, ToOptions (some cfg) =
        .error ("elasticsearch addresses[" ++ toString i ++ "] cannot be empty")) ∧
    (cfg.enabled = true → cfg.addresses ≠ [] → "" ∉ cfg.addresses →
      ToOptions (some cfg) = .ok
        { addresses := cfg.addresses
          username := cfg.username
          password := cfg.password
          cloudID := cfg.cloudID
          apiKey := cfg.apiKey
          enableTLS := cfg.enableTLS
          caCert := cfg.caCert
          dialTimeout := if cfg.dialTimeout = 0 then 30 * 1000000000 else cfg.dialTimeout
          readTimeout := if cfg.readTimeout = 0 then 30 * 1000000000 else cfg.readTimeout
          writeTimeout := if cfg.writeTimeout = 0 then 30 * 1000000000 else cfg.writeTimeout
          maxRetries := cfg.maxRetries
          enableTrace := cfg.enableTrace }) := by
  refine ⟨rfl, fun hdis => ?_, fun hen hemp => ?_, fun hen hmem => ?_,
    fun hen hne hnm => ?_⟩
  · simp [ToOptions, Validate, hdis]
  · simp [ToOptions, Validate, hen, hemp]
  · obtain ⟨i, hi⟩ := firstEmptyAddr_eq_some cfg.addresses 0 hmem
    have hF : cfg.addresses.isEmpty = false := by
      simp [List.isEmpty_iff, List.ne_nil_of_mem hmem]
    exact ⟨i, by simp [ToOptions, Validate, hen, hF, hi]⟩
  · have hF : cfg.addresses.isEmpty = false := by simp [List.isEmpty_iff, hne]
    have hscan := firstEmptyAddr_eq_none cfg.addresses 0 hnm
    simp [ToOptions, Validate, hen, hF, hscan, defaultTimeout]

/-- Concrete evaluation of ToOptions on a minimal enabled config with all
timeouts unset, showing the fallback substitution. -/
theorem toOptions_spec_witness :
    ToOptions (some
      { enabled := true, addresses := ["http://localhost:9200"], username := ""
        password := "", cloudID := "", apiKey := "", enableTLS := false
        caCert := "", dialTimeout := 0, readTimeout := 0, writeTimeout := 0
        maxRetries := 0, enableTrace := false }) = .ok
      { addresses := ["http://localhost:9200"], username := "", password := ""
        cloudID := "", apiKey := "", enableTLS := false, caCert := ""
        dialTimeout := 30 * 1000000000, readTimeout := 30 * 1000000000
        writeTimeout := 30 * 1000000000, maxRetries := 0, enableTrace := false } := by
  have h := toOptions_spec
    { enabled := true, addresses := ["http://localhost:9200"], username := ""
      password := "", cloudID := "", apiKey := "", enableTLS := false
      caCert := "", dialTimeout := 0, readTimeout := 0, writeTimeout := 0
      maxRetries := 0, enableTrace := false }
  simpa using h.2.2.2.2 rfl (by simp) (by simp)

/-- Claim C5: NewElasticsearch fails on nil options with the cannot-be-nil
error and on an empty address list with the cannot-be-empty error, in both
cases uniformly in the native constructor and probe outcomes, i.e. before
any client is constructed and before any network call is attempted. -/
theorem newElasticsearch_precondition_failures
    (createClient : ESConfig → Except String Unit)
    (probe : Except String Response) (o : Options) :
    (NewElasticsearch none createClient probe =
      .error "elasticsearch options cannot be nil") ∧
    (∃ pre post, "elasticsearch options cannot be nil" =
      pre ++ "cannot be nil" ++ post) ∧
    (o.addresses = [] →
      NewElasticsearch (some o) createClient probe =
        .error "elasticsearch addresses cannot be empty") ∧
    (∃ pre post, "elasticsearch addresses cannot be empty" =
      pre ++ "cannot be empty" ++ post) := by
  refine ⟨rfl, ⟨"elasticsearch options ", "", by decide⟩, fun hemp => ?_,
    ⟨"elasticsearch addresses ", "", by decide⟩⟩
  simp [NewElasticsearch, hemp]

/-- Concrete evaluation of the empty-address failure, with a constructor and
probe that would succeed were they ever consulted. -/
theorem newElasticsearch_precondition_failures_witness :
    NewElasticsearch (some
      { addresses := [], username := "u", password := "p", cloudID := ""
        apiKey := "", enableTLS := false, caCert := "", dialTimeout := 0
        readTimeout := 0, writeTimeout := 0, maxRetries := 0, enableTrace := false })
      (fun _ => .ok ()) (.ok ⟨200, .json .null⟩) =
      .error "elasticsearch addresses cannot be empty" :=
  (newElasticsearch_precondition_failures (fun _ => .ok ()) (.ok ⟨200, .json .null⟩)
    { addresses := [], username := "u", password := "p", cloudID := ""
      apiKey := "", enableTLS := false, caCert := "", dialTimeout := 0
      readTimeout := 0, writeTimeout := 0, maxRetries := 0
      enableTrace := false }).2.2.1 rfl

/-- Claim C7: the native client configuration built from Options keeps the
address list, prefers basic credentials over the API key whenever both are
present, passes the cloud identifier through independently of the
authentication choice, and uses the supplied retry count when positive and
the fixed default 3 otherwise; a successful NewElasticsearch carries exactly
this configuration. -/
theorem buildConfig_auth_cloud_retries (o : Options)
    (createClient : ESConfig → Except String Unit)
    (probe : Except String Response) :
    ((buildConfig o).addresses = o.addresses) ∧
    (o.username ≠ "" → o.password ≠ "" →
      (buildConfig o).username = o.username ∧
      (buildConfig o).password = o.password ∧
      (buildConfig o).apiKey = "") ∧
    ((buildConfig o).cloudID = o.cloudID) ∧
    (0 < o.maxRetries → (buildConfig o).maxRetries = o.maxRetries) ∧
    (o.maxRetries ≤ 0 → (buildConfig o).maxRetries = 3) ∧
    (∀ client, NewElasticsearch (some o) createClient probe = .ok client →
      client.clientConfig = buildConfig o) := by
  have hnew : ∀ client, NewElasticsearch (some o) createClient probe = .ok client →
      client.clientConfig = buildConfig o := by
    intro client hok
    unfold NewElasticsearch at hok
    by_cases he : o.addresses.isEmpty
    · simp [he] at hok
    · simp only [he, Bool.false_eq_true, if_false] at hok
      cases hcc : createClient (buildConfig o) with
      | error e => rw [hcc] at hok; simp at hok
      | ok u =>
          rw [hcc] at hok
          cases hp : probe with
          | error e => rw [hp] at hok; simp at hok
          | ok res =>
              rw [hp] at hok
              by_cases hr : isError res
              · simp [hr] at hok
              · simp only [hr, Bool.false_eq_true, if_false,
                  Except.ok.injEq] at hok
                rw [← hok]
  have hbase : ((buildConfig o).addresses = o.addresses) ∧
      (o.username ≠ "" → o.password ≠ "" →
        (buildConfig o).username = o.username ∧
        (buildConfig o).password = o.password ∧
        (buildConfig o).apiKey = "") ∧
      ((buildConfig o).cloudID = o.cloudID) ∧
      (0 < o.maxRetries → (buildConfig o).maxRetries = o.maxRetries) ∧
      (o.maxRetries ≤ 0 → (buildConfig o).maxRetries = 3) := by
    by_cases hu : o.username = "" <;> by_cases hp : o.password = "" <;>
      by_cases ha : o.apiKey = "" <;> by_cases hc : o.cloudID = "" <;>
        by_cases hm : 0 < o.maxRetries <;>
          simp [buildConfig, hu, hp, ha, hc, hm]
  exact ⟨hbase.1, hbase.2.1, hbase.2.2.1, hbase.2.2.2.1, hbase.2.2.2.2, hnew⟩

/-- Concrete evaluation of buildConfig on options supplying both basic
credentials and an API key, with an unset retry count. -/
theorem buildConfig_auth_cloud_retries_witness :
    (buildConfig
      { addresses := ["http://localhost:9200"], username := "user"
        password := "pw", cloudID := "cid", apiKey := "key", enableTLS := false
        caCert := "", dialTimeout := 0, readTimeout := 0, writeTimeout := 0
        maxRetries := 0, enableTrace := false }).username = "user" ∧
    (buildConfig
      { addresses := ["http://localhost:9200"], username := "user"
        password := "pw", cloudID := "cid", apiKey := "key", enableTLS := false
        caCert := "", dialTimeout := 0, readTimeout := 0, writeTimeout := 0
        maxRetries := 0, enableTrace := false }).apiKey = "" ∧
    (buildConfig
      { addresses := ["http://localhost:9200"], username := "user"
        password := "pw", cloudID := "cid", apiKey := "key", enableTLS := false
        caCert := "", dialTimeout := 0, readTimeout := 0, writeTimeout := 0
        maxRetries := 0, enableTrace := false }).maxRetries = 3 := by
  have h := buildConfig_auth_cloud_retries
    { addresses := ["http://localhost:9200"], username := "user"
      password := "pw", cloudID := "cid", apiKey := "key", enableTLS := false
      caCert := "", dialTimeout := 0, readTimeout := 0, writeTimeout := 0
      maxRetries := 0, enableTrace := false }
    (fun _ => .ok ()) (.ok ⟨200, .json .null⟩)
  refine ⟨(h.2.1 ?_ ?_).1, (h.2.1 ?_ ?_).2.2, h.2.2.2.2.1 ?_⟩ <;> simp

/-- Claim C8: for every successfully decoded Count response body, Count
returns the integer value of the count field; when that field is absent or
not numeric, Count returns the explicit invalid-format error, a string
distinct from every transport error and every decode error; this holds both
with no query and with any serialisable query. -/
theorem count_field_extraction (idx : String) (fields : List (String × JsonValue))
    (res : Response) (m : RMap) (n : Int)
    (hok : isError res = false) (hdec : decodeMap res.body = .ok m) :
    (rmapGet m "count" = some (.num n) →
      Count idx none (fun _ => .ok res) = (n, none) ∧
      Count idx (some (.serializable fields)) (fun _ => .ok res) = (n, none)) ∧
    ((∀ k : Int, rmapGet m "count" ≠ some (.num k)) →
      Count idx none (fun _ => .ok res) =
        (0, some "invalid count response format") ∧
      Count idx (some (.serializable fields)) (fun _ => .ok res) =
        (0, some "invalid count response format")) ∧
    (∀ e, "invalid count response format" ≠ "failed to count: " ++ e) ∧
    (∀ e, "invalid count response format" ≠ "failed to decode response: " ++ e) := by
  refine ⟨fun hg => ?_, fun hnone => ?_, fun e => ?_, fun e => ?_⟩
  · constructor <;>
      simp [Count, countDispatch, marshalGoMap, hok, hdec, hg]
  · have hcase : (match rmapGet m "count" with
        | some (.num k) => ((k, none) : Int × Option String)
        | _ => (0, some "invalid count response format")) =
        (0, some "invalid count response format") := by
      cases hg : rmapGet m "count" with
      | none => rfl
      | some v =>
          cases v with
          | num k => exact absurd hg (hnone k)
          | null => rfl
          | bool b => rfl
          | str s => rfl
          | arr elems => rfl
          | obj fs => rfl
    constructor <;>
      simp [Count, countDispatch, marshalGoMap, hok, hdec, hcase]
  · exact ne_append_of_head_ne _ _ _ (by decide) (by decide)
  · exact ne_append_of_head_ne _ _ _ (by decide) (by decide)

/-- Concrete evaluation of Count on a body carrying a numeric count and on a
body whose count field is a string. -/
theorem count_field_extraction_witness :
    Count "idx" none (fun _ => .ok ⟨200, .json (.obj [("count", .num 42)])⟩) =
      (42, none) ∧
    Count "idx" none (fun _ => .ok ⟨200, .json (.obj [("count", .str "x")])⟩) =
      (0, some "invalid count response format") := by
  constructor
  · exact ((count_field_extraction "idx" [] ⟨200, .json (.obj [("count", .num 42)])⟩
      (some [("count", .num 42)]) 42 rfl rfl).1 rfl).1
  · refine ((count_field_extraction "idx" [] ⟨200, .json (.obj [("count", .str "x")])⟩
      (some [("count", .str "x")]) 0 rfl rfl).2.1 ?_).1
    intro k hk
    have hv : rmapGet (some [("count", .str "x")]) "count" = some (.str "x") := rfl
    rw [hv] at hk
    exact JsonValue.noConfusion (Option.some.inj hk)

/-- Claim C9: for the map-returning operations Get, Search, UpdateByQuery
and DeleteByQuery, a non-nil error is always accompanied by a nil result
map, for every transport outcome, query, script and trace setting. -/
theorem error_implies_nil_map (enableTrace : Bool) (idx documentID : String)
    (q : GoMap) (script : Option GoMap)
    (tg : Transport GetRequest) (tq tu td : Transport QueryRequest) (e : String) :
    ((Get enableTrace idx documentID tg).1.2 = some e →
      (Get enableTrace idx documentID tg).1.1 = none) ∧
    ((Search enableTrace idx q tq).1.2 = some e →
      (Search enableTrace idx q tq).1.1 = none) ∧
    ((UpdateByQuery idx q script tu).2 = some e →
      (UpdateByQuery idx q script tu).1 = none) ∧
    ((DeleteByQuery idx q td).2 = some e →
      (DeleteByQuery idx q td).1 = none) := by
  have hq : ∀ (operation : String) (h : RMap × Option String),
      (queryWithTrace operation idx enableTrace h).1.2 = some e →
      (queryWithTrace operation idx enableTrace h).1.1 = none := by
    intro operation h
    obtain ⟨r, err⟩ := h
    cases err <;> simp [queryWithTrace]
  refine ⟨hq "get" (get idx documentID tg), hq "search" (search idx q tq), ?_, ?_⟩
  · unfold UpdateByQuery
    repeat' split
    all_goals intro h
    all_goals first | rfl | exact Option.noConfusion h
  · unfold DeleteByQuery executeQueryRequest
    repeat' split
    all_goals intro h
    all_goals first | rfl | exact Option.noConfusion h

/-- Concrete evaluation: a Get whose transport fails yields a nil map. -/
theorem error_implies_nil_map_witness :
    (Get false "idx" "doc1" (fun _ => .error "conn refused")).1.1 = none :=
  (error_implies_nil_map false "idx" "doc1" (.serializable []) none
    (fun _ => .error "conn refused") (fun _ => .ok ⟨200, .json .null⟩)
    (fun _ => .ok ⟨200, .json .null⟩) (fun _ => .ok ⟨200, .json .null⟩)
    "failed to get document: conn refused").1 rfl

end FrameworkES
